import Mathlib

/-!
Verification of the Authenticode PKCS#7 signature parser core
(`src/fileformat/file_format/pe/authenticode/`): a shallow embedding of
`x509_certificate.cpp`, `pkcs9_counter_signature.cpp` and the `Pkcs7Signature`
interface, with the external OpenSSL primitives (ASN.1 decoding, digests, PEM
and name printing) taken as parameters.  Machine data is modelled with `Nat`
byte lists and `Int` big integers.
-/

namespace Authenticode

/-- The sixteen uppercase hexadecimal digit characters, as in OpenSSL's
`Hex[]` table used by `BN_print`. -/
def hexDigit (n : Nat) : Char :=
  ("0123456789ABCDEF".toList).getD n 'X'

/-- Character class of the uppercase hexadecimal digits. -/
def isUpperHexDigit (c : Char) : Bool :=
  ("0123456789ABCDEF".toList).contains c

/-- Modelled from the spec: `bytesToHex(bytes) → uppercase hex string` (§4.1);
the helper implementation (`bytesToHexString` in `helper.cpp`) is not under
`src/`.  Each byte becomes two uppercase hexadecimal digits, high nibble
first. -/
def bytesToHexString (bs : List Nat) : String :=
  String.mk (bs.flatMap (fun b => [hexDigit (b / 16 % 16), hexDigit (b % 16)]))

/-- Hexadecimal digits of `n`, most significant first, without leading zeros
(empty for `n = 0`), following the digit loop of OpenSSL's `BN_print`.  The
first argument is recursion fuel; `n` itself is always sufficient fuel because
`n / 16 < n` for positive `n`. -/
def natHexDigits : Nat → Nat → List Char
  | 0, _ => []
  | fuel + 1, n =>
    if n = 0 then [] else natHexDigits fuel (n / 16) ++ [hexDigit (n % 16)]

/-- What `BN_print` writes for a `BIGNUM`: a `-` sign for a negative number,
the single digit `0` for zero, and the uppercase hexadecimal digits without
leading zeros otherwise. -/
def serialNumberChars (n : Int) : List Char :=
  (if n < 0 then ['-'] else []) ++
    (if n = 0 then ['0'] else natHexDigits n.natAbs n.natAbs)

/-- `Certificate::Attributes`: one optional string per recognized X.500 short
name; `std::string` members default-construct empty. -/
structure Attributes where
  country : String := ""
  organization : String := ""
  organizationalUnit : String := ""
  nameQualifier : String := ""
  state : String := ""
  commonName : String := ""
  serialNumber : String := ""
  locality : String := ""
  title : String := ""
  surname : String := ""
  givenName : String := ""
  initials : String := ""
  pseudonym : String := ""
  generationQualifier : String := ""
  emailAddress : String := ""
  deriving DecidableEq

/-- One iteration of the `parseAttributes` loop (`x509_certificate.cpp` lines
75-115): the short name of the entry's attribute type selects the field to
assign; any other short name leaves the record unchanged. -/
def applyNameEntry (a : Attributes) (key value : String) : Attributes :=
  if key = "C" then { a with country := value }
  else if key = "O" then { a with organization := value }
  else if key = "OU" then { a with organizationalUnit := value }
  else if key = "dnQualifier" then { a with nameQualifier := value }
  else if key = "ST" then { a with state := value }
  else if key = "CN" then { a with commonName := value }
  else if key = "serialNumber" then { a with serialNumber := value }
  else if key = "L" then { a with locality := value }
  else if key = "title" then { a with title := value }
  else if key = "SN" then { a with surname := value }
  else if key = "GN" then { a with givenName := value }
  else if key = "initials" then { a with initials := value }
  else if key = "pseudonym" then { a with pseudonym := value }
  else if key = "generationQualifier" then { a with generationQualifier := value }
  else if key = "emailAddress" then { a with emailAddress := value }
  else a

/-- `parseAttributes` (`x509_certificate.cpp` lines 70-118): fold over the
name entries in order; an entry is modelled as the (short name, value) pair
the OpenSSL accessors yield for it. -/
def parseAttributes (entries : List (String × String)) : Attributes :=
  entries.foldl (fun a e => applyNameEntry a e.1 e.2) {}

/-- The 15 short names `parseAttributes` recognizes. -/
def recognizedShortNames : List String :=
  ["C", "O", "OU", "dnQualifier", "ST", "CN", "serialNumber", "L", "title",
   "SN", "GN", "initials", "pseudonym", "generationQualifier", "emailAddress"]

/-- Value of the last name entry carrying the given short name, if any. -/
def lastNameValue (k : String) (entries : List (String × String)) : Option String :=
  ((entries.filter (fun e => e.1 == k)).getLast?).map Prod.snd

/-- The data an `X509Certificate` view reads from its borrowed `X509*`:
`der` models the `i2d_X509` re-encoding of the full certificate, the two
entry lists model the `X509_NAME_get_entry` traversals as (short name, value)
pairs, and `publicKeyAlgo = none` models a NULL `X509_get0_pubkey`. -/
structure X509Data where
  der : List Nat
  serial : Int
  subjectEntries : List (String × String)
  issuerEntries : List (String × String)
  notBeforeBytes : List Nat
  notAfterBytes : List Nat
  sigAlgoName : String
  publicKeyPem : String
  publicKeyAlgo : Option String
  version : Nat
  deriving DecidableEq

/-- External primitives the certificate getters delegate to: the EVP digest
functions and the helpers `parseDateTime` / `X509NameToString`, whose sources
are outside the files under verification.  The getters are proved for every
choice of them. -/
structure CryptoPrims where
  sha1 : List Nat → List Nat
  sha256 : List Nat → List Nat
  parseDateTime : List Nat → String
  nameToString : List (String × String) → String

namespace X509Certificate

/-- `X509Certificate::getSerialNumber` (`x509_certificate.cpp` lines 25-39):
`ASN1_INTEGER_to_BN`, then `BN_print` into a memory BIO, returned verbatim. -/
def getSerialNumber (c : X509Data) : String :=
  String.mk (serialNumberChars c.serial)

/-- `getSignatureAlgorithm`: the `OBJ_obj2txt` rendering of the
`tbsCertificate.signature` algorithm. -/
def getSignatureAlgorithm (c : X509Data) : String :=
  c.sigAlgoName

/-- `getValidSince`: `parseDateTime` of `notBefore`. -/
def getValidSince (p : CryptoPrims) (c : X509Data) : String :=
  p.parseDateTime c.notBeforeBytes

/-- `getValidUntil`: `parseDateTime` of `notAfter`. -/
def getValidUntil (p : CryptoPrims) (c : X509Data) : String :=
  p.parseDateTime c.notAfterBytes

/-- `getSubject`: `parseAttributes` over the subject name. -/
def getSubject (c : X509Data) : Attributes :=
  parseAttributes c.subjectEntries

/-- `getIssuer`: `parseAttributes` over the issuer name. -/
def getIssuer (c : X509Data) : Attributes :=
  parseAttributes c.issuerEntries

/-- `getPublicKey`: the PEM-encoded `SubjectPublicKeyInfo`. -/
def getPublicKey (c : X509Data) : String :=
  c.publicKeyPem

/-- `getPublicKeyAlgorithm` (`x509_certificate.cpp` lines 142-150): the key
algorithm short name, or `"unknown"` when `X509_get0_pubkey` is NULL. -/
def getPublicKeyAlgorithm (c : X509Data) : String :=
  c.publicKeyAlgo.getD "unknown"

/-- `getSha1` (`x509_certificate.cpp` lines 152-165): SHA-1 over the
`i2d_X509` re-encoding, hex encoded. -/
def getSha1 (p : CryptoPrims) (c : X509Data) : String :=
  bytesToHexString (p.sha1 c.der)

/-- `getSha256` (`x509_certificate.cpp` lines 166-179): SHA-256 over the
`i2d_X509` re-encoding, hex encoded. -/
def getSha256 (p : CryptoPrims) (c : X509Data) : String :=
  bytesToHexString (p.sha256 c.der)

/-- `getVersion`: the ASN.1 version number. -/
def getVersion (c : X509Data) : Nat :=
  c.version

/-- `getRawSubject`: `X509NameToString` of the subject name. -/
def getRawSubject (p : CryptoPrims) (c : X509Data) : String :=
  p.nameToString c.subjectEntries

/-- `getRawIssuer`: `X509NameToString` of the issuer name. -/
def getRawIssuer (p : CryptoPrims) (c : X509Data) : String :=
  p.nameToString c.issuerEntries

end X509Certificate

/-- The flat `Certificate` record (`certificate.h`) populated by
`createCertificate`. -/
structure Certificate where
  issuerRaw : String
  subjectRaw : String
  issuer : Attributes
  subject : Attributes
  publicKey : String
  publicKeyAlgo : String
  signatureAlgo : String
  serialNumber : String
  sha1Digest : String
  sha256Digest : String
  validSince : String
  validUntil : String
  deriving DecidableEq

/-- `X509Certificate::createCertificate` (`x509_certificate.cpp` lines
196-212): flatten every getter into a `Certificate` record. -/
def X509Certificate.createCertificate (p : CryptoPrims) (c : X509Data) : Certificate :=
  { issuerRaw := X509Certificate.getRawIssuer p c
    subjectRaw := X509Certificate.getRawSubject p c
    issuer := X509Certificate.getIssuer c
    subject := X509Certificate.getSubject c
    publicKey := X509Certificate.getPublicKey c
    publicKeyAlgo := X509Certificate.getPublicKeyAlgorithm c
    signatureAlgo := X509Certificate.getSignatureAlgorithm c
    serialNumber := X509Certificate.getSerialNumber c
    sha1Digest := X509Certificate.getSha1 p c
    sha256Digest := X509Certificate.getSha256 p c
    validSince := X509Certificate.getValidSince p c
    validUntil := X509Certificate.getValidUntil p c }

/-- Result of `X509_verify_cert` followed by `X509_STORE_CTX_get_chain`: the
success flag and the constructed chain.  The chain construction itself is an
OpenSSL primitive, so `getChain` is proved for every engine producing it. -/
structure ChainVerifyResult where
  isValid : Bool
  chain : List X509Data

/-- `CertificateProcessor`: holds the trust store (`X509_STORE`). -/
structure CertificateProcessor where
  trustStore : List X509Data

/-- `CertificateProcessor::CertificateProcessor` (`x509_certificate.cpp` lines
214-220): a fresh `X509_STORE_new`, i.e. an empty trust store. -/
def CertificateProcessor.init : CertificateProcessor :=
  ⟨[]⟩

/-- `CertificateProcessor::getChain` (`x509_certificate.cpp` lines 222-241):
empty for an absent signer; otherwise run the verification engine over the
trust store, the signer and the untrusted pool, and return the constructed
chain — the `is_valid` flag is computed but never used. -/
def CertificateProcessor.getChain
    (engine : List X509Data → X509Data → List X509Data → ChainVerifyResult)
    (proc : CertificateProcessor) (signer : Option X509Data)
    (allCerts : List X509Data) : List X509Data :=
  match signer with
  | none => []
  | some s =>
    let r := engine proc.trustStore s allCerts
    let _is_valid : Bool := r.isValid
    r.chain

/-! ## PKCS#9 counter-signatures (`pkcs9_counter_signature.cpp`) -/

/-- OpenSSL NID (`obj_mac.h`) of `1.2.840.113549.1.9.3`. -/
def NID_pkcs9_contentType : Nat := 50

/-- OpenSSL NID (`obj_mac.h`) of `1.2.840.113549.1.9.4`. -/
def NID_pkcs9_messageDigest : Nat := 51

/-- OpenSSL NID (`obj_mac.h`) of `1.2.840.113549.1.9.5`. -/
def NID_pkcs9_signingTime : Nat := 52

/-- OpenSSL NID (`obj_mac.h`) of `1.2.840.113549.1.9.6`. -/
def NID_pkcs9_countersignature : Nat := 53

/-- Decoded view of a byte string handed to `d2i_PKCS7_SIGNER_INFO`: either
the decode fails (`malformed`), or it yields a `PKCS7_SIGNER_INFO` carrying
its `issuer_and_serial` and the authenticated attributes.  An attribute is the
NID of its OID together with the decoded views of its values; the raw bytes of
any value are recovered with `CSTree.bytes`.  Presenting every byte string
together with its decode result is the embedding of the external ASN.1
decoder. -/
inductive CSTree where
  | malformed (bytes : List Nat)
  | node (issuer : List (String × String)) (serial : Int)
      (attrs : List (Nat × List CSTree)) (bytes : List Nat)

instance : Inhabited CSTree := ⟨.malformed []⟩

/-- Raw bytes of a decoded value. -/
def CSTree.bytes : CSTree → List Nat
  | .malformed bs => bs
  | .node _ _ _ bs => bs

/-- Members of `Pkcs9CounterSignature` (class header, used by the constructor
in `pkcs9_counter_signature.cpp`): the resolved signer certificate, the
`signingTime` and `digest` strings (default-constructed empty) and the
recursively parsed nested counter-signatures.  The class has no warnings
member. -/
inductive Pkcs9CounterSignature where
  | mk (signerCert : X509Data) (signingTime : String) (digest : String)
      (counterSignatures : List Pkcs9CounterSignature)

/-- Signer certificate member (`getX509`). -/
def Pkcs9CounterSignature.signerCert : Pkcs9CounterSignature → X509Data
  | .mk c _ _ _ => c

/-- `signingTime` member. -/
def Pkcs9CounterSignature.signingTime : Pkcs9CounterSignature → String
  | .mk _ t _ _ => t

/-- `digest` member. -/
def Pkcs9CounterSignature.digest : Pkcs9CounterSignature → String
  | .mk _ _ d _ => d

/-- `counterSignatures` member. -/
def Pkcs9CounterSignature.counterSignatures :
    Pkcs9CounterSignature → List Pkcs9CounterSignature
  | .mk _ _ _ cs => cs

/-- Ways `Pkcs9CounterSignature::Pkcs9CounterSignature` fails:
`malformedSignerInfo` and `signerNotFound` model the two thrown
`std::runtime_error`s ("SignerInfo allocation failed", "Unable to find PKCS9
countersignature certificate"); `nullAttrValue` models the undefined
dereference of `X509_ATTRIBUTE_get0_type(attribute, 0)` when the attribute
has no value. -/
inductive Pkcs9Error where
  | malformedSignerInfo
  | signerNotFound
  | nullAttrValue
  deriving DecidableEq

/-- `X509_find_by_issuer_and_serial`: the first certificate of the stack whose
issuer name and serial number both match. -/
def findByIssuerAndSerial (pool : List X509Data)
    (isr : List (String × String)) (ser : Int) : Option X509Data :=
  pool.find? (fun c => c.issuerEntries == isr && c.serial == ser)

mutual

/-- `Pkcs9CounterSignature::Pkcs9CounterSignature`
(`pkcs9_counter_signature.cpp` lines 18-75): decode the `SignerInfo`, resolve
the signer certificate by issuer and serial over the supplied pool, then
iterate the authenticated attributes.  A thrown `std::runtime_error` is
modelled as `Except.error`; `pdt` is the external `parseDateTime` helper. -/
def pkcs9Construct (pdt : List Nat → String) (pool : List X509Data) :
    CSTree → Except Pkcs9Error Pkcs9CounterSignature
  | .malformed _ => .error .malformedSignerInfo
  | .node isr ser attrs _ =>
    match findByIssuerAndSerial pool isr ser with
    | none => .error .signerNotFound
    | some cert => pkcs9AttrLoop pdt pool attrs (.mk cert "" "" [])

/-- The authenticated-attribute loop of the constructor (lines 40-72),
threading the partially built object: a countersignature attribute appends a
recursively constructed child (same pool), contentType is skipped,
signingTime and messageDigest assign their fields from the attribute's first
value, and every other OID falls through with no effect. -/
def pkcs9AttrLoop (pdt : List Nat → String) (pool : List X509Data) :
    List (Nat × List CSTree) → Pkcs9CounterSignature →
      Except Pkcs9Error Pkcs9CounterSignature
  | [], st => .ok st
  | (oid, vals) :: rest, st =>
    if oid = NID_pkcs9_countersignature then
      match vals with
      | [] => .error .nullAttrValue
      | v :: _ =>
        match pkcs9Construct pdt pool v with
        | .error e => .error e
        | .ok child =>
          pkcs9AttrLoop pdt pool rest
            (.mk st.signerCert st.signingTime st.digest (st.counterSignatures ++ [child]))
    else if oid = NID_pkcs9_contentType then
      pkcs9AttrLoop pdt pool rest st
    else if oid = NID_pkcs9_signingTime then
      match vals with
      | [] => .error .nullAttrValue
      | v :: _ =>
        pkcs9AttrLoop pdt pool rest
          (.mk st.signerCert (pdt v.bytes) st.digest st.counterSignatures)
    else if oid = NID_pkcs9_messageDigest then
      match vals with
      | [] => .error .nullAttrValue
      | v :: _ =>
        pkcs9AttrLoop pdt pool rest
          (.mk st.signerCert st.signingTime (bytesToHexString v.bytes) st.counterSignatures)
    else
      pkcs9AttrLoop pdt pool rest st

end

/-- Follow the first counter-signature child `n` times: `some` means the
parsed result still has a node `n` nesting levels below its root. -/
def Pkcs9CounterSignature.descend :
    Nat → Pkcs9CounterSignature → Option Pkcs9CounterSignature
  | 0, p => some p
  | n + 1, p =>
    match p.counterSignatures with
    | [] => none
    | c :: _ => Pkcs9CounterSignature.descend n c

/-- Comparison definition written from the spec's words (§4.4 dispatch table):
`1.2.840.113549.1.9.6` recursively constructs a child from the value using the
same pool; `...9.5` sets `signingTime` to `parseDateTime` of the value;
`...9.4` sets `digest` to the hex of the value; `...9.3` and all other OIDs
are ignored silently. -/
def specAttrDispatch (pdt : List Nat → String) (pool : List X509Data)
    (st : Pkcs9CounterSignature) (oid : Nat) (v : CSTree) :
    Except Pkcs9Error Pkcs9CounterSignature :=
  if oid = NID_pkcs9_countersignature then
    (pkcs9Construct pdt pool v).map
      (fun child =>
        .mk st.signerCert st.signingTime st.digest (st.counterSignatures ++ [child]))
  else if oid = NID_pkcs9_signingTime then
    .ok (.mk st.signerCert (pdt v.bytes) st.digest st.counterSignatures)
  else if oid = NID_pkcs9_messageDigest then
    .ok (.mk st.signerCert st.signingTime (bytesToHexString v.bytes) st.counterSignatures)
  else
    .ok st

/-- Fold of the spec's dispatch table over the attribute list, acting on each
attribute's first value in order (a valueless attribute is the undefined
dereference, as in the constructor). -/
def specDispatchFold (pdt : List Nat → String) (pool : List X509Data) :
    List (Nat × List CSTree) → Pkcs9CounterSignature →
      Except Pkcs9Error Pkcs9CounterSignature
  | [], st => .ok st
  | a :: rest, st =>
    match a.2 with
    | [] => .error .nullAttrValue
    | v :: _ =>
      match specAttrDispatch pdt pool st a.1 v with
      | .error e => .error e
      | .ok st2 => specDispatchFold pdt pool rest st2

/-- First value of the last attribute carrying the given OID: the value that
survives the constructor's overwriting assignments. -/
def lastFirstVal (oid : Nat) : List (Nat × List CSTree) → Option CSTree
  | [] => none
  | (o, vs) :: rest =>
    match lastFirstVal oid rest with
    | some v => some v
    | none => if o = oid then vs.head? else none

/-- An attribute as the constructor observes it: its OID and its first value. -/
def attrFirstView (a : Nat × List CSTree) : Nat × Option CSTree :=
  (a.1, a.2.head?)

/-- Counter-signer certificate every level of `chainTree` names: issuer
`CN = P`, serial 1. -/
def chainCert : X509Data :=
  ⟨[], 1, [], [("CN", "P")], [], [], "", "", none, 0⟩

/-- `n + 1` nested `SignerInfo`s: level `k > 0` carries exactly one
authenticated countersignature attribute holding level `k - 1`. -/
def chainTree : Nat → CSTree
  | 0 => .node [("CN", "P")] 1 [] []
  | n + 1 => .node [("CN", "P")] 1 [(NID_pkcs9_countersignature, [chainTree n])] []

/-- The object `chainTree n` parses to: a chain of `n + 1` nested
`Pkcs9CounterSignature`s. -/
def chainResult : Nat → Pkcs9CounterSignature
  | 0 => .mk chainCert "" "" []
  | n + 1 => .mk chainCert "" "" [chainResult n]

/-- Certificate carrying the 128-bit serial `2 ^ 127` (witness input). -/
def cert128 : X509Data :=
  ⟨[], 2 ^ 127, [], [], [], [], "", "", none, 0⟩

/-- Certificate carrying the negative serial `-1` (counterexample input);
X.509 serials are integers and OpenSSL parses negative ones. -/
def certNeg : X509Data :=
  ⟨[], -1, [], [], [], [], "", "", none, 0⟩

/-! ## The root `Pkcs7Signature` (interface in `pkcs7_signature.h`; its
implementation file is not part of the sources under verification, so the
construction behaviour is modelled from the spec, §4.6). -/

/-- `ContentInfo` of a parsed signature (`pkcs7_signature.h` lines 50-58). -/
structure ContentInfoM where
  contentType : Nat
  digestAlgorithm : Nat
  digest : String
  deriving DecidableEq

/-- Flat `DigitalSignature` record (§6.2), reduced to the fields the claims
touch. -/
structure DigitalSignatureM where
  signedDigest : String
  digestAlgorithm : Nat
  deriving DecidableEq

/-- `SignerInfo` of a parsed signature (`pkcs7_signature.h` lines 59-94),
reduced to the fields the claims touch; nested signatures are carried
pre-flattened. -/
structure SignerInfoM where
  version : Nat
  serial : String
  issuer : String
  digestAlgorithm : Nat
  encryptDigest : List Nat
  nestedFlattened : List DigitalSignatureM
  deriving DecidableEq

/-- What a successful `d2i` of the outer PKCS#7 SignedData envelope yields:
version, declared digest algorithms, embedded certificates, the
`SpcIndirectDataContent` triple (content type, digest algorithm, digest
bytes) when its parse succeeds, and the signer infos. -/
structure EnvelopeM where
  version : Nat
  digestAlgorithms : List Nat
  certs : List X509Data
  content : Option (Nat × Nat × List Nat)
  signerInfos : List SignerInfoM
  deriving DecidableEq

/-- The `Pkcs7Signature` object (`pkcs7_signature.h` lines 96-119) together
with its warnings log. -/
structure Pkcs7Signature where
  version : Nat
  contentInfo : Option ContentInfoM
  signerInfo : Option SignerInfoM
  contentDigestAlgorithms : List Nat
  certificates : List X509Data
  warnings : List String
  deriving DecidableEq

/-- Modelled from the spec: the body of `Pkcs7Signature::Pkcs7Signature` is
not under `src/` (only its `noexcept` declaration, `pkcs7_signature.h` line
118).  Per §4.6: a failed envelope decode yields an empty object carrying the
single warning `MALFORMED_ENVELOPE` and no exception; on success the digest
algorithms, certificates, content info (hex digest) and the first `SignerInfo`
are populated, with `MALFORMED_CONTENT` / `MULTIPLE_SIGNERS` warnings as
described there.  The external envelope decoder is the `d2i7` parameter. -/
def pkcs7Construct (d2i7 : List Nat → Option EnvelopeM) (input : List Nat) :
    Pkcs7Signature :=
  match d2i7 input with
  | none =>
    { version := 0, contentInfo := none, signerInfo := none,
      contentDigestAlgorithms := [], certificates := [],
      warnings := ["MALFORMED_ENVELOPE"] }
  | some env =>
    { version := env.version
      contentInfo := env.content.map (fun c => ⟨c.1, c.2.1, bytesToHexString c.2.2⟩)
      signerInfo := env.signerInfos.head?
      contentDigestAlgorithms := env.digestAlgorithms
      certificates := env.certs
      warnings :=
        (if env.content.isNone then ["MALFORMED_CONTENT"] else []) ++
          (if 1 < env.signerInfos.length then ["MULTIPLE_SIGNERS"] else []) }

/-- Modelled from the spec: `getSignatures` (§4.6, §6.2; the implementation
file is not under `src/`) flattens the tree into `DigitalSignature` records,
parent first; with no `SignerInfo` present nothing is emitted. -/
def pkcs7GetSignatures (sig : Pkcs7Signature) : List DigitalSignatureM :=
  match sig.signerInfo with
  | none => []
  | some si =>
    ⟨((sig.contentInfo.map (fun c => c.digest)).getD ""), si.digestAlgorithm⟩ ::
      si.nestedFlattened

/-- `signingTime` value after processing `attrs` starting from `base`: the
last signingTime attribute's first value wins, else `base` survives. -/
def timeAfter (pdt : List Nat → String) (base : String)
    (attrs : List (Nat × List CSTree)) : String :=
  match lastFirstVal NID_pkcs9_signingTime attrs with
  | none => base
  | some v => pdt v.bytes

/-- `digest` value after processing `attrs` starting from `base`: the last
messageDigest attribute's first value wins, else `base` survives. -/
def digestAfter (base : String) (attrs : List (Nat × List CSTree)) : String :=
  match lastFirstVal NID_pkcs9_messageDigest attrs with
  | none => base
  | some v => bytesToHexString v.bytes

/-! ## Helper lemmas -/

theorem pkcs9Construct_node (pdt : List Nat → String) (pool : List X509Data)
    (isr : List (String × String)) (ser : Int)
    (attrs : List (Nat × List CSTree)) (bs : List Nat) :
    pkcs9Construct pdt pool (.node isr ser attrs bs) =
      match findByIssuerAndSerial pool isr ser with
      | none => .error .signerNotFound
      | some cert => pkcs9AttrLoop pdt pool attrs (.mk cert "" "" []) := by
  rw [pkcs9Construct.eq_def]

theorem pkcs9AttrLoop_cons_countersig_nil (pdt : List Nat → String)
    (pool : List X509Data) (rest : List (Nat × List CSTree))
    (st : Pkcs9CounterSignature) :
    pkcs9AttrLoop pdt pool ((NID_pkcs9_countersignature, []) :: rest) st =
      .error .nullAttrValue := by
  rw [pkcs9AttrLoop.eq_def]
  rfl

theorem pkcs9AttrLoop_cons_countersig (pdt : List Nat → String)
    (pool : List X509Data) (v : CSTree) (vt : List CSTree)
    (rest : List (Nat × List CSTree)) (st : Pkcs9CounterSignature) :
    pkcs9AttrLoop pdt pool ((NID_pkcs9_countersignature, v :: vt) :: rest) st =
      match pkcs9Construct pdt pool v with
      | .error e => .error e
      | .ok child =>
        pkcs9AttrLoop pdt pool rest
          (.mk st.signerCert st.signingTime st.digest
            (st.counterSignatures ++ [child])) := by
  rw [pkcs9AttrLoop.eq_def]
  rfl

theorem pkcs9AttrLoop_cons_contentType (pdt : List Nat → String)
    (pool : List X509Data) (vals : List CSTree)
    (rest : List (Nat × List CSTree)) (st : Pkcs9CounterSignature) :
    pkcs9AttrLoop pdt pool ((NID_pkcs9_contentType, vals) :: rest) st =
      pkcs9AttrLoop pdt pool rest st := by
  rw [pkcs9AttrLoop.eq_def]
  rfl

theorem pkcs9AttrLoop_cons_signingTime_nil (pdt : List Nat → String)
    (pool : List X509Data) (rest : List (Nat × List CSTree))
    (st : Pkcs9CounterSignature) :
    pkcs9AttrLoop pdt pool ((NID_pkcs9_signingTime, []) :: rest) st =
      .error .nullAttrValue := by
  rw [pkcs9AttrLoop.eq_def]
  rfl

theorem pkcs9AttrLoop_cons_signingTime (pdt : List Nat → String)
    (pool : List X509Data) (v : CSTree) (vt : List CSTree)
    (rest : List (Nat × List CSTree)) (st : Pkcs9CounterSignature) :
    pkcs9AttrLoop pdt pool ((NID_pkcs9_signingTime, v :: vt) :: rest) st =
      pkcs9AttrLoop pdt pool rest
        (.mk st.signerCert (pdt v.bytes) st.digest st.counterSignatures) := by
  rw [pkcs9AttrLoop.eq_def]
  rfl

theorem pkcs9AttrLoop_cons_messageDigest_nil (pdt : List Nat → String)
    (pool : List X509Data) (rest : List (Nat × List CSTree))
    (st : Pkcs9CounterSignature) :
    pkcs9AttrLoop pdt pool ((NID_pkcs9_messageDigest, []) :: rest) st =
      .error .nullAttrValue := by
  rw [pkcs9AttrLoop.eq_def]
  rfl

theorem pkcs9AttrLoop_cons_messageDigest (pdt : List Nat → String)
    (pool : List X509Data) (v : CSTree) (vt : List CSTree)
    (rest : List (Nat × List CSTree)) (st : Pkcs9CounterSignature) :
    pkcs9AttrLoop pdt pool ((NID_pkcs9_messageDigest, v :: vt) :: rest) st =
      pkcs9AttrLoop pdt pool rest
        (.mk st.signerCert st.signingTime (bytesToHexString v.bytes)
          st.counterSignatures) := by
  rw [pkcs9AttrLoop.eq_def]
  rfl

theorem pkcs9AttrLoop_cons_other (pdt : List Nat → String)
    (pool : List X509Data) (oid : Nat) (vals : List CSTree)
    (rest : List (Nat × List CSTree)) (st : Pkcs9CounterSignature)
    (h1 : oid ≠ NID_pkcs9_countersignature) (h2 : oid ≠ NID_pkcs9_contentType)
    (h3 : oid ≠ NID_pkcs9_signingTime) (h4 : oid ≠ NID_pkcs9_messageDigest) :
    pkcs9AttrLoop pdt pool ((oid, vals) :: rest) st =
      pkcs9AttrLoop pdt pool rest st := by
  rw [pkcs9AttrLoop.eq_def]
  simp [h1, h2, h3, h4]

theorem pkcs9AttrLoop_append (pdt : List Nat → String) (pool : List X509Data)
    (xs ys : List (Nat × List CSTree)) (st : Pkcs9CounterSignature) :
    pkcs9AttrLoop pdt pool (xs ++ ys) st =
      match pkcs9AttrLoop pdt pool xs st with
      | .error e => .error e
      | .ok st2 => pkcs9AttrLoop pdt pool ys st2 := by
  induction xs generalizing st with
  | nil => rfl
  | cons a rest ih =>
    obtain ⟨oid, vals⟩ := a
    cases vals with
    | nil =>
      simp only [List.cons_append, pkcs9AttrLoop]
      split_ifs <;> first | rfl | exact ih st
    | cons v vt =>
      simp only [List.cons_append, pkcs9AttrLoop]
      split_ifs with h1 h2 h3 h4
      · cases hc : pkcs9Construct pdt pool v with
        | error e => rfl
        | ok child => exact ih _
      · exact ih st
      · exact ih _
      · exact ih _
      · exact ih st

theorem chainCert_found :
    findByIssuerAndSerial [chainCert] [("CN", "P")] 1 = some chainCert := rfl

theorem chainTree_ok (pdt : List Nat → String) :
    ∀ n, pkcs9Construct pdt [chainCert] (chainTree n) = .ok (chainResult n) := by
  intro n
  induction n with
  | zero => rfl
  | succ k ih =>
    show pkcs9Construct pdt [chainCert]
        (.node [("CN", "P")] 1 [(NID_pkcs9_countersignature, [chainTree k])] []) = _
    simp [pkcs9Construct, pkcs9AttrLoop, chainCert_found, ih, chainResult,
      Pkcs9CounterSignature.signerCert, Pkcs9CounterSignature.signingTime,
      Pkcs9CounterSignature.digest, Pkcs9CounterSignature.counterSignatures]

theorem chainResult_descend :
    ∀ n, Pkcs9CounterSignature.descend n (chainResult n) = some (chainResult 0) := by
  intro n
  induction n with
  | zero => rfl
  | succ k ih =>
    simpa [chainResult, Pkcs9CounterSignature.descend,
      Pkcs9CounterSignature.counterSignatures] using ih

/-! ## Claim theorems -/

/-- Claim C1, amended: when the counter-signature's (issuer, serial) pair
matches no certificate of the supplied pool, `Pkcs9CounterSignature`
construction fails by throwing (`.error .signerNotFound`, modelling the
`std::runtime_error` of `pkcs9_counter_signature.cpp` lines 36-38); this
constructor records no warning anywhere and hands the exception to its
caller. -/
theorem c1_signer_not_found_throws (pdt : List Nat → String)
    (pool : List X509Data) (isr : List (String × String)) (ser : Int)
    (attrs : List (Nat × List CSTree)) (bytes : List Nat)
    (hnone : findByIssuerAndSerial pool isr ser = none) :
    pkcs9Construct pdt pool (.node isr ser attrs bytes) =
      .error .signerNotFound := by
  simp [pkcs9Construct, hnone]

/-- Witness for C1's amended theorem at an empty pool. -/
theorem c1_signer_not_found_witness :
    pkcs9Construct bytesToHexString [] (.node [("CN", "X")] 5 [] []) =
      .error .signerNotFound :=
  c1_signer_not_found_throws bytesToHexString [] [("CN", "X")] 5 [] [] rfl

/-- Counterexample to C1 as stated: a parent counter-signature whose signer
resolves and whose signingTime was already parsed still fails as a whole when
a nested counter-signature's signer is missing from the pool — the failure is
an escaping error, not a warning, and it does not drop only the affected
counter-signature. -/
theorem c1_counterexample :
    pkcs9Construct bytesToHexString [chainCert]
      (.node [("CN", "P")] 1
        [(NID_pkcs9_signingTime, [.malformed [9]]),
         (NID_pkcs9_countersignature, [.node [("CN", "X")] 7 [] []])] []) =
      .error .signerNotFound := by
  rfl

/-- Claim C2, amended: `Pkcs9CounterSignature` enforces no recursion-depth
limit at all — for every `n`, an `n`-level nested counter-signature chain
constructs completely (a node remains reachable `n` levels below the root),
and neither a `MAX_DEPTH_EXCEEDED` warning nor any other depth error exists
in this code (`Pkcs9Error` has no such case and the class has no warnings
member); the recursion is bounded only by the nesting of the input. -/
theorem c2_no_depth_limit (pdt : List Nat → String) (n : Nat) :
    pkcs9Construct pdt [chainCert] (chainTree n) = .ok (chainResult n) ∧
    Pkcs9CounterSignature.descend n (chainResult n) = some (.mk chainCert "" "" []) :=
  ⟨chainTree_ok pdt n, chainResult_descend n⟩

/-- Counterexample to C2 as stated: the 20-level nested chain constructs in
full — no `MAX_DEPTH_EXCEEDED`, nothing dropped, and the output still has a
node 20 levels deep (> 16). -/
theorem c2_counterexample :
    pkcs9Construct bytesToHexString [chainCert] (chainTree 20) = .ok (chainResult 20) ∧
    Pkcs9CounterSignature.descend 20 (chainResult 20) = some (.mk chainCert "" "" []) :=
  ⟨chainTree_ok bytesToHexString 20, chainResult_descend 20⟩

/-- Claim C10: a failing nested counter-signature aborts the enclosing
`Pkcs9CounterSignature` constructor with the child's error, even though the
parent's signer had resolved and its earlier attributes (signingTime, digest,
earlier children, accumulated in `st2`) had already been parsed — all of that
state is discarded. -/
theorem c10_child_failure_aborts_parent (pdt : List Nat → String)
    (pool : List X509Data) (isr : List (String × String)) (ser : Int)
    (bytes : List Nat) (pre post : List (Nat × List CSTree)) (vtl : List CSTree)
    (v : CSTree) (cert : X509Data) (st2 : Pkcs9CounterSignature) (e : Pkcs9Error)
    (hcert : findByIssuerAndSerial pool isr ser = some cert)
    (hpre : pkcs9AttrLoop pdt pool pre (.mk cert "" "" []) = .ok st2)
    (hchild : pkcs9Construct pdt pool v = .error e) :
    pkcs9Construct pdt pool
      (.node isr ser (pre ++ (NID_pkcs9_countersignature, v :: vtl) :: post) bytes) =
      .error e := by
  simp only [pkcs9Construct, hcert]
  rw [pkcs9AttrLoop_append, hpre]
  simp [pkcs9AttrLoop, hchild]

theorem timeAfter_cons_self (pdt : List Nat → String) (b : String)
    (v : CSTree) (vt : List CSTree) (rest : List (Nat × List CSTree)) :
    timeAfter pdt b ((NID_pkcs9_signingTime, v :: vt) :: rest) =
      timeAfter pdt (pdt v.bytes) rest := by
  cases hl : lastFirstVal NID_pkcs9_signingTime rest <;>
    simp [timeAfter, lastFirstVal, hl]

theorem timeAfter_cons_other (pdt : List Nat → String) (b : String)
    (oid : Nat) (vals : List CSTree) (rest : List (Nat × List CSTree))
    (h : oid ≠ NID_pkcs9_signingTime) :
    timeAfter pdt b ((oid, vals) :: rest) = timeAfter pdt b rest := by
  cases hl : lastFirstVal NID_pkcs9_signingTime rest <;>
    simp [timeAfter, lastFirstVal, hl, h]

theorem digestAfter_cons_self (b : String)
    (v : CSTree) (vt : List CSTree) (rest : List (Nat × List CSTree)) :
    digestAfter b ((NID_pkcs9_messageDigest, v :: vt) :: rest) =
      digestAfter (bytesToHexString v.bytes) rest := by
  cases hl : lastFirstVal NID_pkcs9_messageDigest rest <;>
    simp [digestAfter, lastFirstVal, hl]

theorem digestAfter_cons_other (b : String)
    (oid : Nat) (vals : List CSTree) (rest : List (Nat × List CSTree))
    (h : oid ≠ NID_pkcs9_messageDigest) :
    digestAfter b ((oid, vals) :: rest) = digestAfter b rest := by
  cases hl : lastFirstVal NID_pkcs9_messageDigest rest <;>
    simp [digestAfter, lastFirstVal, hl, h]

theorem pkcs9AttrLoop_fields (pdt : List Nat → String) (pool : List X509Data) :
    ∀ (attrs : List (Nat × List CSTree)) (st p : Pkcs9CounterSignature),
      pkcs9AttrLoop pdt pool attrs st = .ok p →
      p.signingTime = timeAfter pdt st.signingTime attrs ∧
      p.digest = digestAfter st.digest attrs := by
  intro attrs
  induction attrs with
  | nil =>
    intro st p h
    injection h with h
    subst h
    simp [timeAfter, digestAfter, lastFirstVal]
  | cons a rest ih =>
    intro st p h
    obtain ⟨oid, vals⟩ := a
    by_cases h1 : oid = NID_pkcs9_countersignature
    · subst h1
      cases vals with
      | nil =>
        rw [pkcs9AttrLoop_cons_countersig_nil] at h
        exact absurd h (by simp)
      | cons v vt =>
        rw [pkcs9AttrLoop_cons_countersig] at h
        cases hc : pkcs9Construct pdt pool v with
        | error e =>
          rw [hc] at h
          exact absurd h (by simp)
        | ok child =>
          rw [hc] at h
          obtain ⟨ht, hd⟩ :=
            ih (.mk st.signerCert st.signingTime st.digest
              (st.counterSignatures ++ [child])) p h
          refine ⟨?_, ?_⟩
          · rw [timeAfter_cons_other pdt _ _ _ _ (by decide)]
            simpa [Pkcs9CounterSignature.signingTime] using ht
          · rw [digestAfter_cons_other _ _ _ _ (by decide)]
            simpa [Pkcs9CounterSignature.digest] using hd
    · by_cases h2 : oid = NID_pkcs9_contentType
      · subst h2
        rw [pkcs9AttrLoop_cons_contentType] at h
        obtain ⟨ht, hd⟩ := ih st p h
        exact ⟨by rw [timeAfter_cons_other pdt _ _ _ _ (by decide)]; exact ht,
          by rw [digestAfter_cons_other _ _ _ _ (by decide)]; exact hd⟩
      · by_cases h3 : oid = NID_pkcs9_signingTime
        · subst h3
          cases vals with
          | nil =>
            rw [pkcs9AttrLoop_cons_signingTime_nil] at h
            exact absurd h (by simp)
          | cons v vt =>
            rw [pkcs9AttrLoop_cons_signingTime] at h
            obtain ⟨ht, hd⟩ :=
              ih (.mk st.signerCert (pdt v.bytes) st.digest st.counterSignatures) p h
            refine ⟨?_, ?_⟩
            · rw [timeAfter_cons_self]
              simpa [Pkcs9CounterSignature.signingTime] using ht
            · rw [digestAfter_cons_other _ _ _ _ (by decide)]
              simpa [Pkcs9CounterSignature.digest] using hd
        · by_cases h4 : oid = NID_pkcs9_messageDigest
          · subst h4
            cases vals with
            | nil =>
              rw [pkcs9AttrLoop_cons_messageDigest_nil] at h
              exact absurd h (by simp)
            | cons v vt =>
              rw [pkcs9AttrLoop_cons_messageDigest] at h
              obtain ⟨ht, hd⟩ :=
                ih (.mk st.signerCert st.signingTime (bytesToHexString v.bytes)
                  st.counterSignatures) p h
              refine ⟨?_, ?_⟩
              · rw [timeAfter_cons_other pdt _ _ _ _ (by decide)]
                simpa [Pkcs9CounterSignature.signingTime] using ht
              · rw [digestAfter_cons_self]
                simpa [Pkcs9CounterSignature.digest] using hd
          · rw [pkcs9AttrLoop_cons_other pdt pool oid vals rest st h1 h2 h3 h4] at h
            obtain ⟨ht, hd⟩ := ih st p h
            exact ⟨by rw [timeAfter_cons_other pdt _ _ _ _ h3]; exact ht,
              by rw [digestAfter_cons_other _ _ _ _ h4]; exact hd⟩

theorem pkcs9AttrLoop_firstView_congr (pdt : List Nat → String)
    (pool : List X509Data) :
    ∀ (attrs attrs2 : List (Nat × List CSTree)) (st : Pkcs9CounterSignature),
      attrs.map attrFirstView = attrs2.map attrFirstView →
      pkcs9AttrLoop pdt pool attrs st = pkcs9AttrLoop pdt pool attrs2 st := by
  intro attrs
  induction attrs with
  | nil =>
    intro attrs2 st h
    cases attrs2 with
    | nil => rfl
    | cons b r2 => simp at h
  | cons a rest ih =>
    intro attrs2 st h
    cases attrs2 with
    | nil => simp at h
    | cons b rest2 =>
      obtain ⟨oid, vals⟩ := a
      obtain ⟨oid2, vals2⟩ := b
      simp only [List.map_cons, List.cons.injEq, attrFirstView, Prod.mk.injEq] at h
      obtain ⟨⟨ho, hh⟩, hrest⟩ := h
      subst ho
      cases vals with
      | nil =>
        obtain rfl : vals2 = [] := by
          cases vals2 with
          | nil => rfl
          | cons w wt => simp at hh
        simp only [pkcs9AttrLoop]
        split_ifs <;> first | rfl | exact ih rest2 st hrest
      | cons v vt =>
        cases vals2 with
        | nil => simp at hh
        | cons w wt =>
          obtain rfl : v = w := by simpa using hh
          simp only [pkcs9AttrLoop]
          split_ifs with h1 h2 h3 h4
          · cases hc : pkcs9Construct pdt pool v with
            | error e => rfl
            | ok child => exact ih rest2 _ hrest
          · exact ih rest2 st hrest
          · exact ih rest2 _ hrest
          · exact ih rest2 _ hrest
          · exact ih rest2 st hrest

/-- Claim C9: in the authenticated-attribute loop, later occurrences of
signingTime / messageDigest overwrite earlier ones (the surviving values are
the last occurrences' first values, `timeAfter` / `digestAfter`), and only
index 0 of each possibly multivalued attribute is read: any attribute list
with the same OIDs and same first values yields the identical result. -/
theorem c9_last_wins_first_value (pdt : List Nat → String)
    (pool : List X509Data) (attrs attrs2 : List (Nat × List CSTree))
    (st p : Pkcs9CounterSignature)
    (hok : pkcs9AttrLoop pdt pool attrs st = .ok p)
    (hview : attrs.map attrFirstView = attrs2.map attrFirstView) :
    p.signingTime = timeAfter pdt st.signingTime attrs ∧
    p.digest = digestAfter st.digest attrs ∧
    pkcs9AttrLoop pdt pool attrs2 st = .ok p := by
  obtain ⟨ht, hd⟩ := pkcs9AttrLoop_fields pdt pool attrs st p hok
  exact ⟨ht, hd,
    (pkcs9AttrLoop_firstView_congr pdt pool attrs attrs2 st hview).symm.trans hok⟩

/-- Witness for C9: two signingTime attributes — the second (last) one wins —
where the second attribute of the first list carries a junk extra value and
the first attribute of the second list does; both lists construct the same
object. -/
theorem c9_witness :
    (Pkcs9CounterSignature.mk chainCert (bytesToHexString [2]) "" []).signingTime =
      timeAfter bytesToHexString ""
        [(NID_pkcs9_signingTime, [.malformed [1]]),
         (NID_pkcs9_signingTime, [.malformed [2], .malformed [7]])] ∧
    (Pkcs9CounterSignature.mk chainCert (bytesToHexString [2]) "" []).digest =
      digestAfter ""
        [(NID_pkcs9_signingTime, [.malformed [1]]),
         (NID_pkcs9_signingTime, [.malformed [2], .malformed [7]])] ∧
    pkcs9AttrLoop bytesToHexString []
        [(NID_pkcs9_signingTime, [.malformed [1], .malformed [8]]),
         (NID_pkcs9_signingTime, [.malformed [2]])]
        (.mk chainCert "" "" []) =
      .ok (.mk chainCert (bytesToHexString [2]) "" []) :=
  c9_last_wins_first_value bytesToHexString []
    [(NID_pkcs9_signingTime, [.malformed [1]]),
     (NID_pkcs9_signingTime, [.malformed [2], .malformed [7]])]
    [(NID_pkcs9_signingTime, [.malformed [1], .malformed [8]]),
     (NID_pkcs9_signingTime, [.malformed [2]])]
    (.mk chainCert "" "" []) (.mk chainCert (bytesToHexString [2]) "" [])
    rfl rfl

/-- Claim C5: the authenticated-attribute loop coincides with the spec's OID
dispatch table (`specAttrDispatch`) folded over the attributes' first values:
countersignature recursively constructs a child with the same pool and
appends it, signingTime assigns `parseDateTime` of the value, messageDigest
assigns the hex of the value, and contentType like every other OID leaves the
state untouched. -/
theorem c5_dispatch_table (pdt : List Nat → String) (pool : List X509Data) :
    ∀ (attrs : List (Nat × List CSTree)) (st : Pkcs9CounterSignature),
      (∀ a ∈ attrs, a.2 ≠ []) →
      pkcs9AttrLoop pdt pool attrs st = specDispatchFold pdt pool attrs st := by
  intro attrs
  induction attrs with
  | nil => intro st _; rfl
  | cons a rest ih =>
    intro st hv
    obtain ⟨oid, vals⟩ := a
    have hvh : vals ≠ [] := hv (oid, vals) (List.mem_cons_self _ _)
    have hvr : ∀ a ∈ rest, a.2 ≠ [] := fun a ha => hv a (List.mem_cons_of_mem _ ha)
    cases vals with
    | nil => exact absurd rfl hvh
    | cons v vt =>
      simp only [pkcs9AttrLoop, specDispatchFold, specAttrDispatch]
      split_ifs <;>
        first
        | (cases hc : pkcs9Construct pdt pool v with
           | error e => rfl
           | ok child => exact ih _ hvr)
        | exact ih _ hvr
        | simp_all [NID_pkcs9_contentType, NID_pkcs9_signingTime,
            NID_pkcs9_messageDigest, NID_pkcs9_countersignature]

/-- Witness for C5 over attributes exercising every dispatch branch:
contentType, signingTime, messageDigest, a recursive countersignature and an
unknown OID. -/
theorem c5_witness :
    pkcs9AttrLoop bytesToHexString [chainCert]
        [(NID_pkcs9_contentType, [.malformed [1]]),
         (NID_pkcs9_signingTime, [.malformed [2]]),
         (NID_pkcs9_messageDigest, [.malformed [3]]),
         (NID_pkcs9_countersignature, [chainTree 0]),
         (99, [.malformed [4]])]
        (.mk chainCert "" "" []) =
      specDispatchFold bytesToHexString [chainCert]
        [(NID_pkcs9_contentType, [.malformed [1]]),
         (NID_pkcs9_signingTime, [.malformed [2]]),
         (NID_pkcs9_messageDigest, [.malformed [3]]),
         (NID_pkcs9_countersignature, [chainTree 0]),
         (99, [.malformed [4]])]
        (.mk chainCert "" "" []) :=
  c5_dispatch_table bytesToHexString [chainCert]
    [(NID_pkcs9_contentType, [.malformed [1]]),
     (NID_pkcs9_signingTime, [.malformed [2]]),
     (NID_pkcs9_messageDigest, [.malformed [3]]),
     (NID_pkcs9_countersignature, [chainTree 0]),
     (99, [.malformed [4]])]
    (.mk chainCert "" "" [])
    (by intro a ha; simp only [List.mem_cons] at ha
        rcases ha with rfl | rfl | rfl | rfl | rfl | h
        · simp
        · simp
        · simp
        · simp
        · simp
        · simp at h)

/-- Witness for C10: the parent has signer `CN = P` (resolved) and an already
parsed signingTime; the nested counter-signature's bytes do not decode, and
the whole construction collapses to that error. -/
theorem c10_witness :
    pkcs9Construct bytesToHexString [chainCert]
      (.node [("CN", "P")] 1
        ([(NID_pkcs9_signingTime, [.malformed [3]])] ++
          (NID_pkcs9_countersignature, CSTree.malformed [] :: []) :: []) []) =
      .error .malformedSignerInfo :=
  c10_child_failure_aborts_parent bytesToHexString [chainCert] [("CN", "P")] 1 []
    [(NID_pkcs9_signingTime, [.malformed [3]])] [] [] (.malformed []) chainCert
    (.mk chainCert (bytesToHexString [3]) "" []) .malformedSignerInfo
    rfl rfl rfl

/-- Claim C3: (spec-modelled) the `Pkcs7Signature` constructor is total — the
model is a Lean function, and the `noexcept` declaration
(`pkcs7_signature.h` line 118) promises no escaping exception — and when the
top-level SignedData decode fails it yields the empty object carrying exactly
the warning `MALFORMED_ENVELOPE`, from which `getSignatures` emits no
`DigitalSignature`. -/
theorem c3_malformed_envelope (d2i7 : List Nat → Option EnvelopeM)
    (input : List Nat) (hfail : d2i7 input = none) :
    pkcs7Construct d2i7 input =
      { version := 0, contentInfo := none, signerInfo := none,
        contentDigestAlgorithms := [], certificates := [],
        warnings := ["MALFORMED_ENVELOPE"] } ∧
    pkcs7GetSignatures (pkcs7Construct d2i7 input) = [] := by
  refine ⟨?_, ?_⟩ <;> simp [pkcs7Construct, pkcs7GetSignatures, hfail]

/-- Witness for C3 with a decoder that rejects the (truncated) input. -/
theorem c3_witness :
    pkcs7Construct (fun _ => none) [48, 130] =
      { version := 0, contentInfo := none, signerInfo := none,
        contentDigestAlgorithms := [], certificates := [],
        warnings := ["MALFORMED_ENVELOPE"] } ∧
    pkcs7GetSignatures (pkcs7Construct (fun _ => none) [48, 130]) = [] :=
  c3_malformed_envelope (fun _ => none) [48, 130] rfl

theorem natHexDigits_zero (fuel : Nat) : natHexDigits fuel 0 = [] := by
  cases fuel <;> simp [natHexDigits]

theorem hexDigit_hex : ∀ k, k < 16 → isUpperHexDigit (hexDigit k) = true := by
  decide

theorem natHexDigits_all_hex (fuel : Nat) :
    ∀ n c, c ∈ natHexDigits fuel n → isUpperHexDigit c = true := by
  induction fuel with
  | zero =>
    intro n c hc
    simp [natHexDigits] at hc
  | succ f ih =>
    intro n c hc
    by_cases h : n = 0
    · simp [natHexDigits, h] at hc
    · simp only [natHexDigits, if_neg h, List.mem_append, List.mem_singleton] at hc
      rcases hc with hc | hc
      · exact ih _ _ hc
      · subst hc
        exact hexDigit_hex _ (Nat.mod_lt _ (by norm_num))

theorem natHexDigits_length (fuel : Nat) :
    ∀ n, 0 < n → n ≤ fuel → (natHexDigits fuel n).length = Nat.log 16 n + 1 := by
  induction fuel with
  | zero =>
    intro n h0 hf
    omega
  | succ f ih =>
    intro n h0 hf
    have hne : n ≠ 0 := by omega
    simp only [natHexDigits, if_neg hne, List.length_append, List.length_cons,
      List.length_nil]
    by_cases h16 : n < 16
    · rw [Nat.div_eq_of_lt h16, natHexDigits_zero]
      have hlz : Nat.log 16 n = 0 := Nat.log_eq_zero_iff.mpr (Or.inl h16)
      simp [hlz]
    · have hpos : 0 < n / 16 := Nat.div_pos (Nat.le_of_not_lt h16) (by norm_num)
      have hlt : n / 16 < n := Nat.div_lt_self h0 (by norm_num)
      have hle : n / 16 ≤ f := by omega
      rw [ih (n / 16) hpos hle]
      have hlog : Nat.log 16 (n / 16) = Nat.log 16 n - 1 := Nat.log_div_base 16 n
      have hlogpos : 0 < Nat.log 16 n :=
        Nat.log_pos (by norm_num) (Nat.le_of_not_lt h16)
      omega

/-- Claim C4, amended: `getSerialNumber` prints the serial in uppercase
hexadecimal with no `0x` for every non-negative serial — and exactly 32
digits for a 128-bit serial — but a negative serial is printed with a leading
`-` sign (`BN_print` behaviour), so the "no sign prefix" guarantee holds only
for non-negative serials. -/
theorem c4_serial_hex (c : X509Data) (h0 : 0 ≤ c.serial) :
    (X509Certificate.getSerialNumber c).data.all isUpperHexDigit = true ∧
    (2 ^ 127 ≤ c.serial → c.serial < 2 ^ 128 →
      (X509Certificate.getSerialNumber c).length = 32) := by
  constructor
  · show (serialNumberChars c.serial).all isUpperHexDigit = true
    unfold serialNumberChars
    rw [if_neg (by omega)]
    by_cases hz : c.serial = 0
    · rw [if_pos hz]
      decide
    · rw [if_neg hz, List.nil_append, List.all_eq_true]
      intro x hx
      exact natHexDigits_all_hex _ _ x hx
  · intro hlo hhi
    show (serialNumberChars c.serial).length = 32
    have hz : c.serial ≠ 0 := by
      intro h
      rw [h] at hlo
      norm_num at hlo
    unfold serialNumberChars
    rw [if_neg (by omega), if_neg hz, List.nil_append]
    have habs : ((c.serial.natAbs : Int)) = c.serial := Int.natAbs_of_nonneg h0
    have hlo2 : (2 : Nat) ^ 127 ≤ c.serial.natAbs := by
      rw [← habs] at hlo
      exact_mod_cast hlo
    have hhi2 : c.serial.natAbs < 2 ^ 128 := by
      rw [← habs] at hhi
      exact_mod_cast hhi
    have hposn : 0 < c.serial.natAbs := lt_of_lt_of_le (by norm_num) hlo2
    rw [natHexDigits_length _ _ hposn (le_refl _)]
    have hlog : Nat.log 16 c.serial.natAbs = 31 := by
      apply Nat.log_eq_of_pow_le_of_lt_pow
      · calc (16 : Nat) ^ 31 = 2 ^ 124 := by norm_num
          _ ≤ 2 ^ 127 := by norm_num
          _ ≤ _ := hlo2
      · calc c.serial.natAbs < 2 ^ 128 := hhi2
          _ = 16 ^ 32 := by norm_num
    omega

/-- Witness for C4's amended theorem: the serial `2 ^ 127` prints as 32
uppercase hexadecimal characters. -/
theorem c4_witness :
    (X509Certificate.getSerialNumber cert128).data.all isUpperHexDigit = true ∧
    (X509Certificate.getSerialNumber cert128).length = 32 :=
  ⟨(c4_serial_hex cert128 (by norm_num [cert128])).1,
   (c4_serial_hex cert128 (by norm_num [cert128])).2
     (by norm_num [cert128]) (by norm_num [cert128])⟩

/-- Counterexample to C4 as stated: the serial `-1` prints as `-1`, carrying
a sign prefix and a non-hexadecimal character. -/
theorem c4_counterexample :
    X509Certificate.getSerialNumber certNeg = "-1" ∧
    (X509Certificate.getSerialNumber certNeg).data.all isUpperHexDigit = false := by
  constructor <;> decide

theorem parseAttributes_append_singleton (es : List (String × String))
    (k2 v : String) :
    parseAttributes (es ++ [(k2, v)]) =
      applyNameEntry (parseAttributes es) k2 v := by
  simp [parseAttributes, List.foldl_append]

theorem lastNameValue_append_self (k : String) (es : List (String × String))
    (v : String) :
    lastNameValue k (es ++ [(k, v)]) = some v := by
  simp [lastNameValue, List.filter_append]

theorem lastNameValue_append_other (k k2 : String)
    (es : List (String × String)) (v : String) (h : k2 ≠ k) :
    lastNameValue k (es ++ [(k2, v)]) = lastNameValue k es := by
  simp [lastNameValue, List.filter_append, h]

theorem parseAttributes_field (f : Attributes → String) (k : String)
    (hset : ∀ a v, f (applyNameEntry a k v) = v)
    (hskip : ∀ a k2 v, k2 ≠ k → f (applyNameEntry a k2 v) = f a) :
    ∀ entries, f (parseAttributes entries) = (lastNameValue k entries).getD (f {}) := by
  intro entries
  induction entries using List.reverseRecOn with
  | nil => simp [parseAttributes, lastNameValue]
  | append_singleton es e ihe =>
    obtain ⟨k2, v⟩ := e
    rw [parseAttributes_append_singleton]
    by_cases hk : k2 = k
    · subst hk
      rw [hset, lastNameValue_append_self]
      rfl
    · rw [hskip _ _ _ hk, lastNameValue_append_other _ _ _ _ hk, ihe]

theorem applyNameEntry_spec (a : Attributes) (k2 v : String) :
    (applyNameEntry a k2 v).country = (if k2 = "C" then v else a.country) ∧
    (applyNameEntry a k2 v).organization = (if k2 = "O" then v else a.organization) ∧
    (applyNameEntry a k2 v).organizationalUnit = (if k2 = "OU" then v else a.organizationalUnit) ∧
    (applyNameEntry a k2 v).nameQualifier = (if k2 = "dnQualifier" then v else a.nameQualifier) ∧
    (applyNameEntry a k2 v).state = (if k2 = "ST" then v else a.state) ∧
    (applyNameEntry a k2 v).commonName = (if k2 = "CN" then v else a.commonName) ∧
    (applyNameEntry a k2 v).serialNumber = (if k2 = "serialNumber" then v else a.serialNumber) ∧
    (applyNameEntry a k2 v).locality = (if k2 = "L" then v else a.locality) ∧
    (applyNameEntry a k2 v).title = (if k2 = "title" then v else a.title) ∧
    (applyNameEntry a k2 v).surname = (if k2 = "SN" then v else a.surname) ∧
    (applyNameEntry a k2 v).givenName = (if k2 = "GN" then v else a.givenName) ∧
    (applyNameEntry a k2 v).initials = (if k2 = "initials" then v else a.initials) ∧
    (applyNameEntry a k2 v).pseudonym = (if k2 = "pseudonym" then v else a.pseudonym) ∧
    (applyNameEntry a k2 v).generationQualifier = (if k2 = "generationQualifier" then v else a.generationQualifier) ∧
    (applyNameEntry a k2 v).emailAddress = (if k2 = "emailAddress" then v else a.emailAddress) ∧
    (k2 ∉ recognizedShortNames → applyNameEntry a k2 v = a) := by
  by_cases h1 : k2 = "C"
  · subst h1
    exact ⟨rfl, rfl, rfl, rfl, rfl, rfl, rfl, rfl, rfl, rfl, rfl, rfl, rfl, rfl, rfl, fun hmem => absurd (by decide) hmem⟩
  by_cases h2 : k2 = "O"
  · subst h2
    exact ⟨rfl, rfl, rfl, rfl, rfl, rfl, rfl, rfl, rfl, rfl, rfl, rfl, rfl, rfl, rfl, fun hmem => absurd (by decide) hmem⟩
  by_cases h3 : k2 = "OU"
  · subst h3
    exact ⟨rfl, rfl, rfl, rfl, rfl, rfl, rfl, rfl, rfl, rfl, rfl, rfl, rfl, rfl, rfl, fun hmem => absurd (by decide) hmem⟩
  by_cases h4 : k2 = "dnQualifier"
  · subst h4
    exact ⟨rfl, rfl, rfl, rfl, rfl, rfl, rfl, rfl, rfl, rfl, rfl, rfl, rfl, rfl, rfl, fun hmem => absurd (by decide) hmem⟩
  by_cases h5 : k2 = "ST"
  · subst h5
    exact ⟨rfl, rfl, rfl, rfl, rfl, rfl, rfl, rfl, rfl, rfl, rfl, rfl, rfl, rfl, rfl, fun hmem => absurd (by decide) hmem⟩
  by_cases h6 : k2 = "CN"
  · subst h6
    exact ⟨rfl, rfl, rfl, rfl, rfl, rfl, rfl, rfl, rfl, rfl, rfl, rfl, rfl, rfl, rfl, fun hmem => absurd (by decide) hmem⟩
  by_cases h7 : k2 = "serialNumber"
  · subst h7
    exact ⟨rfl, rfl, rfl, rfl, rfl, rfl, rfl, rfl, rfl, rfl, rfl, rfl, rfl, rfl, rfl, fun hmem => absurd (by decide) hmem⟩
  by_cases h8 : k2 = "L"
  · subst h8
    exact ⟨rfl, rfl, rfl, rfl, rfl, rfl, rfl, rfl, rfl, rfl, rfl, rfl, rfl, rfl, rfl, fun hmem => absurd (by decide) hmem⟩
  by_cases h9 : k2 = "title"
  · subst h9
    exact ⟨rfl, rfl, rfl, rfl, rfl, rfl, rfl, rfl, rfl, rfl, rfl, rfl, rfl, rfl, rfl, fun hmem => absurd (by decide) hmem⟩
  by_cases h10 : k2 = "SN"
  · subst h10
    exact ⟨rfl, rfl, rfl, rfl, rfl, rfl, rfl, rfl, rfl, rfl, rfl, rfl, rfl, rfl, rfl, fun hmem => absurd (by decide) hmem⟩
  by_cases h11 : k2 = "GN"
  · subst h11
    exact ⟨rfl, rfl, rfl, rfl, rfl, rfl, rfl, rfl, rfl, rfl, rfl, rfl, rfl, rfl, rfl, fun hmem => absurd (by decide) hmem⟩
  by_cases h12 : k2 = "initials"
  · subst h12
    exact ⟨rfl, rfl, rfl, rfl, rfl, rfl, rfl, rfl, rfl, rfl, rfl, rfl, rfl, rfl, rfl, fun hmem => absurd (by decide) hmem⟩
  by_cases h13 : k2 = "pseudonym"
  · subst h13
    exact ⟨rfl, rfl, rfl, rfl, rfl, rfl, rfl, rfl, rfl, rfl, rfl, rfl, rfl, rfl, rfl, fun hmem => absurd (by decide) hmem⟩
  by_cases h14 : k2 = "generationQualifier"
  · subst h14
    exact ⟨rfl, rfl, rfl, rfl, rfl, rfl, rfl, rfl, rfl, rfl, rfl, rfl, rfl, rfl, rfl, fun hmem => absurd (by decide) hmem⟩
  by_cases h15 : k2 = "emailAddress"
  · subst h15
    exact ⟨rfl, rfl, rfl, rfl, rfl, rfl, rfl, rfl, rfl, rfl, rfl, rfl, rfl, rfl, rfl, fun hmem => absurd (by decide) hmem⟩
  simp only [applyNameEntry, if_neg h1, if_neg h2, if_neg h3, if_neg h4, if_neg h5, if_neg h6, if_neg h7, if_neg h8, if_neg h9, if_neg h10, if_neg h11, if_neg h12, if_neg h13, if_neg h14, if_neg h15]
  simp

/-- Claim C6: the structured `Attributes` record extracts exactly the 15
recognized short names, every field holding the value of the *last* name
entry with that short name (empty when absent), and an entry whose short
name is outside the recognized set leaves the record unchanged. -/
theorem c6_attributes (entries : List (String × String)) :
    ((parseAttributes entries).country = (lastNameValue "C" entries).getD "" ∧
     (parseAttributes entries).organization = (lastNameValue "O" entries).getD "" ∧
     (parseAttributes entries).organizationalUnit = (lastNameValue "OU" entries).getD "" ∧
     (parseAttributes entries).nameQualifier = (lastNameValue "dnQualifier" entries).getD "" ∧
     (parseAttributes entries).state = (lastNameValue "ST" entries).getD "" ∧
     (parseAttributes entries).commonName = (lastNameValue "CN" entries).getD "" ∧
     (parseAttributes entries).serialNumber = (lastNameValue "serialNumber" entries).getD "" ∧
     (parseAttributes entries).locality = (lastNameValue "L" entries).getD "" ∧
     (parseAttributes entries).title = (lastNameValue "title" entries).getD "" ∧
     (parseAttributes entries).surname = (lastNameValue "SN" entries).getD "" ∧
     (parseAttributes entries).givenName = (lastNameValue "GN" entries).getD "" ∧
     (parseAttributes entries).initials = (lastNameValue "initials" entries).getD "" ∧
     (parseAttributes entries).pseudonym = (lastNameValue "pseudonym" entries).getD "" ∧
     (parseAttributes entries).generationQualifier =
       (lastNameValue "generationQualifier" entries).getD "" ∧
     (parseAttributes entries).emailAddress = (lastNameValue "emailAddress" entries).getD "") ∧
    ∀ k v, k ∉ recognizedShortNames →
      parseAttributes (entries ++ [(k, v)]) = parseAttributes entries := by
  constructor
  · refine ⟨?_, ?_, ?_, ?_, ?_, ?_, ?_, ?_, ?_, ?_, ?_, ?_, ?_, ?_, ?_⟩
    · exact parseAttributes_field (fun a => a.country) "C"
        (fun a v => ((applyNameEntry_spec a "C" v).1).trans (if_pos rfl))
        (fun a k2 v h => ((applyNameEntry_spec a k2 v).1).trans (if_neg h)) entries
    · exact parseAttributes_field (fun a => a.organization) "O"
        (fun a v => ((applyNameEntry_spec a "O" v).2.1).trans (if_pos rfl))
        (fun a k2 v h => ((applyNameEntry_spec a k2 v).2.1).trans (if_neg h)) entries
    · exact parseAttributes_field (fun a => a.organizationalUnit) "OU"
        (fun a v => ((applyNameEntry_spec a "OU" v).2.2.1).trans (if_pos rfl))
        (fun a k2 v h => ((applyNameEntry_spec a k2 v).2.2.1).trans (if_neg h)) entries
    · exact parseAttributes_field (fun a => a.nameQualifier) "dnQualifier"
        (fun a v => ((applyNameEntry_spec a "dnQualifier" v).2.2.2.1).trans (if_pos rfl))
        (fun a k2 v h => ((applyNameEntry_spec a k2 v).2.2.2.1).trans (if_neg h)) entries
    · exact parseAttributes_field (fun a => a.state) "ST"
        (fun a v => ((applyNameEntry_spec a "ST" v).2.2.2.2.1).trans (if_pos rfl))
        (fun a k2 v h => ((applyNameEntry_spec a k2 v).2.2.2.2.1).trans (if_neg h)) entries
    · exact parseAttributes_field (fun a => a.commonName) "CN"
        (fun a v => ((applyNameEntry_spec a "CN" v).2.2.2.2.2.1).trans (if_pos rfl))
        (fun a k2 v h => ((applyNameEntry_spec a k2 v).2.2.2.2.2.1).trans (if_neg h)) entries
    · exact parseAttributes_field (fun a => a.serialNumber) "serialNumber"
        (fun a v => ((applyNameEntry_spec a "serialNumber" v).2.2.2.2.2.2.1).trans (if_pos rfl))
        (fun a k2 v h => ((applyNameEntry_spec a k2 v).2.2.2.2.2.2.1).trans (if_neg h)) entries
    · exact parseAttributes_field (fun a => a.locality) "L"
        (fun a v => ((applyNameEntry_spec a "L" v).2.2.2.2.2.2.2.1).trans (if_pos rfl))
        (fun a k2 v h => ((applyNameEntry_spec a k2 v).2.2.2.2.2.2.2.1).trans (if_neg h)) entries
    · exact parseAttributes_field (fun a => a.title) "title"
        (fun a v => ((applyNameEntry_spec a "title" v).2.2.2.2.2.2.2.2.1).trans (if_pos rfl))
        (fun a k2 v h => ((applyNameEntry_spec a k2 v).2.2.2.2.2.2.2.2.1).trans (if_neg h)) entries
    · exact parseAttributes_field (fun a => a.surname) "SN"
        (fun a v => ((applyNameEntry_spec a "SN" v).2.2.2.2.2.2.2.2.2.1).trans (if_pos rfl))
        (fun a k2 v h => ((applyNameEntry_spec a k2 v).2.2.2.2.2.2.2.2.2.1).trans (if_neg h)) entries
    · exact parseAttributes_field (fun a => a.givenName) "GN"
        (fun a v => ((applyNameEntry_spec a "GN" v).2.2.2.2.2.2.2.2.2.2.1).trans (if_pos rfl))
        (fun a k2 v h => ((applyNameEntry_spec a k2 v).2.2.2.2.2.2.2.2.2.2.1).trans (if_neg h)) entries
    · exact parseAttributes_field (fun a => a.initials) "initials"
        (fun a v => ((applyNameEntry_spec a "initials" v).2.2.2.2.2.2.2.2.2.2.2.1).trans (if_pos rfl))
        (fun a k2 v h => ((applyNameEntry_spec a k2 v).2.2.2.2.2.2.2.2.2.2.2.1).trans (if_neg h)) entries
    · exact parseAttributes_field (fun a => a.pseudonym) "pseudonym"
        (fun a v => ((applyNameEntry_spec a "pseudonym" v).2.2.2.2.2.2.2.2.2.2.2.2.1).trans (if_pos rfl))
        (fun a k2 v h => ((applyNameEntry_spec a k2 v).2.2.2.2.2.2.2.2.2.2.2.2.1).trans (if_neg h)) entries
    · exact parseAttributes_field (fun a => a.generationQualifier) "generationQualifier"
        (fun a v => ((applyNameEntry_spec a "generationQualifier" v).2.2.2.2.2.2.2.2.2.2.2.2.2.1).trans (if_pos rfl))
        (fun a k2 v h => ((applyNameEntry_spec a k2 v).2.2.2.2.2.2.2.2.2.2.2.2.2.1).trans (if_neg h)) entries
    · exact parseAttributes_field (fun a => a.emailAddress) "emailAddress"
        (fun a v => ((applyNameEntry_spec a "emailAddress" v).2.2.2.2.2.2.2.2.2.2.2.2.2.2.1).trans (if_pos rfl))
        (fun a k2 v h => ((applyNameEntry_spec a k2 v).2.2.2.2.2.2.2.2.2.2.2.2.2.2.1).trans (if_neg h)) entries
  · intro k v hk
    rw [parseAttributes_append_singleton]
    exact (applyNameEntry_spec (parseAttributes entries) k v).2.2.2.2.2.2.2.2.2.2.2.2.2.2.2 hk

/-- Witness for C6: the last `CN` wins, an unrecognized type is ignored. -/
theorem c6_witness :
    (parseAttributes [("CN", "a"), ("ZZZ", "x"), ("CN", "b")]).commonName = "b" ∧
    parseAttributes ([("CN", "a")] ++ [("QQ", "z")]) = parseAttributes [("CN", "a")] :=
  ⟨((c6_attributes [("CN", "a"), ("ZZZ", "x"), ("CN", "b")]).1.2.2.2.2.2.1).trans
      (by decide),
   (c6_attributes [("CN", "a")]).2 "QQ" "z" (by decide)⟩

/-- Claim C7: `getChain` returns the empty sequence when the signer is
absent, and otherwise exactly the chain constructed by the verification
engine over the (empty by default) trust store — independently of the
engine's success flag, whose value (`is_valid` in the source) is never
used. -/
theorem c7_chain
    (engine engine2 : List X509Data → X509Data → List X509Data → ChainVerifyResult)
    (proc : CertificateProcessor) (s : X509Data) (allCerts : List X509Data) :
    CertificateProcessor.getChain engine proc none allCerts = [] ∧
    CertificateProcessor.getChain engine proc (some s) allCerts =
      (engine proc.trustStore s allCerts).chain ∧
    CertificateProcessor.init.trustStore = [] ∧
    ((engine proc.trustStore s allCerts).chain =
        (engine2 proc.trustStore s allCerts).chain →
      CertificateProcessor.getChain engine proc (some s) allCerts =
        CertificateProcessor.getChain engine2 proc (some s) allCerts) :=
  ⟨rfl, rfl, rfl, fun h => h⟩

/-- Witness for C7: two engines that agree on the constructed chain but
disagree on the verification verdict produce the same `getChain` output. -/
theorem c7_witness :
    CertificateProcessor.getChain (fun _ _ _ => ⟨true, [cert128]⟩)
        CertificateProcessor.init (some cert128) [] =
      CertificateProcessor.getChain (fun _ _ _ => ⟨false, [cert128]⟩)
        CertificateProcessor.init (some cert128) [] :=
  (c7_chain (fun _ _ _ => ⟨true, [cert128]⟩) (fun _ _ _ => ⟨false, [cert128]⟩)
    CertificateProcessor.init cert128 []).2.2.2 rfl

theorem flatMapHex_length (bs : List Nat) :
    (bs.flatMap (fun b => [hexDigit (b / 16 % 16), hexDigit (b % 16)])).length =
      2 * bs.length := by
  induction bs with
  | nil => rfl
  | cons b rest ih =>
    simp only [List.flatMap_cons, List.length_append, List.length_cons,
      List.length_nil, ih]
    omega

theorem bytesToHexString_length (bs : List Nat) :
    (bytesToHexString bs).length = 2 * bs.length :=
  flatMapHex_length bs

/-- Claim C8: `getSha1` / `getSha256` return the hex encoding of the digest
computed by the EVP primitive over the `i2d_X509` DER re-encoding of the
whole certificate; `createCertificate` copies exactly those values into the
flat record, and a 20-byte (resp. 32-byte) digest yields 40 (resp. 64) hex
characters. -/
theorem c8_sha_digests (p : CryptoPrims) (c : X509Data) :
    X509Certificate.getSha256 p c = bytesToHexString (p.sha256 c.der) ∧
    X509Certificate.getSha1 p c = bytesToHexString (p.sha1 c.der) ∧
    (X509Certificate.createCertificate p c).sha256Digest =
      bytesToHexString (p.sha256 c.der) ∧
    (X509Certificate.createCertificate p c).sha1Digest =
      bytesToHexString (p.sha1 c.der) ∧
    ((p.sha256 c.der).length = 32 → (X509Certificate.getSha256 p c).length = 64) ∧
    ((p.sha1 c.der).length = 20 → (X509Certificate.getSha1 p c).length = 40) := by
  refine ⟨rfl, rfl, rfl, rfl, fun h => ?_, fun h => ?_⟩
  · show (bytesToHexString (p.sha256 c.der)).length = 64
    rw [bytesToHexString_length, h]
  · show (bytesToHexString (p.sha1 c.der)).length = 40
    rw [bytesToHexString_length, h]

/-- Witness for C8 with digest primitives of the EVP output sizes. -/
theorem c8_witness :
    (X509Certificate.getSha256
        ⟨fun _ => List.replicate 20 0, fun _ => List.replicate 32 0,
         fun _ => "", fun _ => ""⟩ cert128).length = 64 ∧
    (X509Certificate.getSha1
        ⟨fun _ => List.replicate 20 0, fun _ => List.replicate 32 0,
         fun _ => "", fun _ => ""⟩ cert128).length = 40 :=
  ⟨(c8_sha_digests ⟨fun _ => List.replicate 20 0, fun _ => List.replicate 32 0,
      fun _ => "", fun _ => ""⟩ cert128).2.2.2.2.1 (by decide),
   (c8_sha_digests ⟨fun _ => List.replicate 20 0, fun _ => List.replicate 32 0,
      fun _ => "", fun _ => ""⟩ cert128).2.2.2.2.2 (by decide)⟩

end Authenticode
